import Mathlib

/-!
Verification development for the `Multi_Display` sketch
(`examples/Multi_Display.ino`) of the CAN-Bus-Arduino-compatible repository.

The sketch's state and operations are shallowly embedded here:

* sensor values (C `float`) are modelled as exact rationals `ℚ`;
* C `int` / `long` values are modelled as `ℤ`, with C's truncating
  division (`Int.tdiv`) and float-to-integer truncation toward zero;
* the monotonic millisecond clock (`millis()`) is a `ℕ` parameter;
* the NeoPixel strip buffer is a function `Fin 16 → ℕ` of packed RGB
  colors, and observable driver calls (`strip.show()` commits,
  `setPixelColor` writes) are counted in an explicit effects record;
* the OLED page-drawing protocol is abstracted to a single optional
  draw event carrying the value, width, precision and label that the
  code hands to the driver.
-/

namespace MultiDisplay

/-- The fixed LED-strip length of the sketch, `NUMNEOPIXELS` (16-pixel ring). -/
def NUMNEOPIXELS : ℕ := 16

/-- C conversion of a floating value to an integer: truncation toward zero
(used when `float displayValue` is passed to Arduino's `map`, which takes
`long` arguments). -/
def truncQ (q : ℚ) : ℤ := Int.tdiv q.num (q.den : ℤ)

/-- Arduino's `map(x, in_min, in_max, out_min, out_max)`:
`(x - in_min) * (out_max - out_min) / (in_max - in_min) + out_min` with
C `long` arithmetic, whose division truncates toward zero. -/
def arduinoMap (x inMin inMax outMin outMax : ℤ) : ℤ :=
  Int.tdiv ((x - inMin) * (outMax - outMin)) (inMax - inMin) + outMin

/-- Arduino's `constrain(x, lo, hi)`. -/
def constrain (x lo hi : ℤ) : ℤ :=
  if x < lo then lo else if x > hi then hi else x

/-- The packing `Adafruit_NeoPixel::Color(r, g, b)`: packs three 8-bit channels into one
32-bit word `(r << 16) | (g << 8) | b`; the `uint8_t` parameter conversion
keeps only the low 8 bits of each argument. -/
def stripColor (r g b : ℕ) : ℕ := r % 256 * 65536 + g % 256 * 256 + b % 256

/-- Red channel of a packed color. -/
def colorR (c : ℕ) : ℕ := c / 65536 % 256

/-- Green channel of a packed color. -/
def colorG (c : ℕ) : ℕ := c / 256 % 256

/-- Blue channel of a packed color. -/
def colorB (c : ℕ) : ℕ := c % 256

/-- How many of the three channels of a packed color are zero. -/
def zeroChannelCount (c : ℕ) : ℕ :=
  (if colorR c = 0 then 1 else 0) + (if colorG c = 0 then 1 else 0) +
    (if colorB c = 0 then 1 else 0)

/-- The sketch function `Wheel(byte WheelPos)`: maps a byte position 0–255 to a
packed RGB color along a red→green→blue→red hue cycle. The `byte` parameter
conversion is modelled by reducing the argument mod 256 on entry. -/
def Wheel (pos : ℕ) : ℕ :=
  let WheelPos := pos % 256
  if WheelPos < 85 then
    stripColor (WheelPos * 3) (255 - WheelPos * 3) 0
  else if WheelPos < 170 then
    stripColor (255 - (WheelPos - 85) * 3) 0 ((WheelPos - 85) * 3)
  else
    stripColor 0 ((WheelPos - 170) * 3) (255 - (WheelPos - 170) * 3)

/-- The module-level gauge configuration of the sketch: the globals written
by `set_levels` (`stagePT[0..1]`, `ledStages[1..2]`, `color[0..2]`,
`alarmOutsideRange`). `ledStages[0]` and `ledStages[3]` are never read by the
renderer and never written after initialization, so they are not modelled. -/
structure GaugeConfig where
  stagePT0 : ℤ
  stagePT1 : ℤ
  ledStages1 : ℤ
  ledStages2 : ℤ
  color0 : ℕ
  color1 : ℕ
  color2 : ℕ
  alarmOutsideRange : Bool
deriving Repr, DecidableEq

/-- The sketch function `set_levels`: overwrites the whole gauge configuration.
The C `color0 & 255` bit-mask on each color argument is `% 256`. -/
def set_levels (stagePT0 stagePT1 stage0 stage1 : ℤ)
    (color0 color1 color2 : ℤ) (alarm : Bool) : GaugeConfig :=
  { stagePT0 := stagePT0
    stagePT1 := stagePT1
    ledStages1 := stage0
    ledStages2 := stage1
    color0 := Wheel (color0 % 256).toNat
    color1 := Wheel (color1 % 256).toNat
    color2 := Wheel (color2 % 256).toNat
    alarmOutsideRange := alarm }

/-- Gauge mode 1 (Tachometer): `set_levels()` with all defaults. -/
def tachConfig : GaugeConfig := set_levels 4200 6200 5 2 255 48 86 true

/-- Gauge mode 2 (Speedometer): `set_levels(1, 100)`. -/
def speedConfig : GaugeConfig := set_levels 1 100 5 2 255 48 86 true

/-- Gauge mode 3 (Instant MPG): `set_levels(1, 50, 14, 12, 48, 10, 0, 0)`. -/
def mpgConfig : GaugeConfig := set_levels 1 50 14 12 48 10 0 false

/-- Gauge mode 4 (Boost): `set_levels(-15, 10, 12, 7, 20, 10, 0, 0)`. -/
def boostConfig : GaugeConfig := set_levels (-15) 10 12 7 20 10 0 false

/-- Gauge mode 5 (Fuel level) before its direct overrides:
`set_levels(1, 100, 14, 12, 86, 48, 0, 0)`. -/
def fuelConfigPre : GaugeConfig := set_levels 1 100 14 12 86 48 0 false

/-- Gauge mode 5 (Fuel level) after the direct array overrides that follow
`set_levels` in `loop`: `stagePT[0] = 1; stagePT[1] = 100;
ledStages[1] = strip.numPixels();`. -/
def fuelConfig : GaugeConfig :=
  { fuelConfigPre with
    stagePT0 := 1
    stagePT1 := 100
    ledStages1 := (NUMNEOPIXELS : ℤ) }

/-- Gauge mode 6 (Coolant): `set_levels(190, 220, 5, 2, 0, 48, 86, 0)`. -/
def coolantConfig : GaugeConfig := set_levels 190 220 5 2 0 48 86 false

/-- Gauge mode 7 (Ambient): `set_levels(85, 110, 5, 2, 0, 48, 86, 0)`. -/
def ambientConfig : GaugeConfig := set_levels 85 110 5 2 0 48 86 false

/-- Gauge mode 8 (Lux): `set_levels(0, 10000, 5, 2, 0, 48, 86, 0)`. -/
def luxConfig : GaugeConfig := set_levels 0 10000 5 2 0 48 86 false

/-- The initial values of the gauge-configuration globals:
`stagePT = {4200, 6200}`, `ledStages = {15, 5, 2, 0}`, `color[3]`
zero-initialized, `alarmOutsideRange = 1`. -/
def cfgInit : GaugeConfig :=
  { stagePT0 := 4200
    stagePT1 := 6200
    ledStages1 := 5
    ledStages2 := 2
    color0 := 0
    color1 := 0
    color2 := 0
    alarmOutsideRange := true }

/-- The spec-level invariant claimed for the LED level boundaries. -/
def levelInvariant (g : GaugeConfig) : Prop :=
  g.ledStages1 ≤ (NUMNEOPIXELS : ℤ) - 1 ∧ g.ledStages2 ≤ g.ledStages1 ∧
    0 ≤ g.ledStages2

instance (g : GaugeConfig) : Decidable (levelInvariant g) := by
  unfold levelInvariant; infer_instance

/-- The NeoPixel frame buffer: packed color of each of the 16 pixels. -/
abbrev Buffer : Type := Fin NUMNEOPIXELS → ℕ

/-- The driver call `strip.setPixelColor(n, c)`: writes pixel `n` if `n` is a valid index
(the driver silently ignores out-of-range indices, which is how the sketch's
loop bound `ledNum = -1` is absorbed). -/
def setPixelColor (buf : Buffer) (n : ℤ) (c : ℕ) : Buffer :=
  fun i => if (i : ℤ) = n then c else buf i

/-- The all-off buffer produced by `clearLEDs()` (16 writes and one commit;
the effect counts are accounted for at the call sites). -/
def clearedBuffer : Buffer := fun _ => 0

/-- The body of the in-range paint loop of `ledStrip_update`: the pixel at
`ledNum` is colored `color[0]` at or above `ledStages[1]`, `color[1]` between
`ledStages[2]` and `ledStages[1]`, and `color[2]` below `ledStages[2]`,
mirroring the sketch's three-way `if`/`else if` chain. -/
def paintPixel (g : GaugeConfig) (buf : Buffer) (ledNum : ℤ) : Buffer :=
  if ledNum ≥ g.ledStages1 then setPixelColor buf ledNum g.color0
  else if ledNum < g.ledStages1 ∧ ledNum ≥ g.ledStages2 then
    setPixelColor buf ledNum g.color1
  else if ledNum < g.ledStages2 then setPixelColor buf ledNum g.color2
  else buf

/-- The descending paint loop
`for (ledNum = numPixels - 1; ledNum >= numOfLEDs; ledNum--)`, written with
explicit fuel so that it is structurally recursive (and hence evaluates by
kernel reduction); `paintDown` supplies enough fuel for every bound the
renderer can produce. -/
def paintDownAux (g : GaugeConfig) (numLEDs : ℤ) :
    ℕ → ℤ → Buffer → Buffer
  | 0, _, buf => buf
  | fuel + 1, ledNum, buf =>
    if numLEDs ≤ ledNum then
      paintDownAux g numLEDs fuel (ledNum - 1) (paintPixel g buf ledNum)
    else buf

/-- The whole in-range paint loop, starting at `strip.numPixels() - 1`. -/
def paintDown (g : GaugeConfig) (numLEDs : ℤ) (buf : Buffer) : Buffer :=
  paintDownAux g numLEDs (NUMNEOPIXELS + 1) ((NUMNEOPIXELS : ℤ) - 1) buf

/-- The alarm blink frame with even pixels on in `color[2]` and odd pixels
off (written by the `warningState == 0` branch). -/
def blinkFrameEven (g : GaugeConfig) : Buffer :=
  fun i => if (i : ℕ) % 2 = 0 then g.color2 else 0

/-- The alarm blink frame with odd pixels on in `color[2]` and even pixels
off (written by the `warningState != 0` branch). -/
def blinkFrameOdd (g : GaugeConfig) : Buffer :=
  fun i => if (i : ℕ) % 2 = 1 then g.color2 else 0

/-- The renderer's module state: `prev_range`, `warningState`,
`prevBlinkTime` and the strip's frame buffer. -/
structure LedState where
  prev_range : ℤ
  warningState : ℤ
  prevBlinkTime : ℕ
  buf : Buffer

/-- Initial renderer state: `prev_range = 100`, `warningState = 0`,
`prevBlinkTime = 0`, strip cleared by `setup()`. -/
def ledInit : LedState :=
  { prev_range := 100, warningState := 0, prevBlinkTime := 0,
    buf := clearedBuffer }

/-- Observable LED-driver activity of one `ledStrip_update` call:
number of `strip.show()` commits, number of `setPixelColor` writes, and
whether the alarm blink bit toggled. -/
structure LedEffects where
  shows : ℕ
  writes : ℕ
  toggled : Bool
deriving Repr, DecidableEq

/-- No driver activity. -/
def noLedEffects : LedEffects := { shows := 0, writes := 0, toggled := false }

/-- Guard of the first regime of `ledStrip_update`:
`displayValue >= stagePT[0] && (displayValue < stagePT[1] ||
alarmOutsideRange == 0)`. -/
def inRangeCond (g : GaugeConfig) (v : ℚ) : Prop :=
  (g.stagePT0 : ℚ) ≤ v ∧ (v < (g.stagePT1 : ℚ) ∨ g.alarmOutsideRange = false)

instance (g : GaugeConfig) (v : ℚ) : Decidable (inRangeCond g v) := by
  unfold inRangeCond; infer_instance

/-- Guard of the alarm regime of `ledStrip_update`:
`displayValue >= stagePT[1] && alarmOutsideRange`. -/
def alarmCond (g : GaugeConfig) (v : ℚ) : Prop :=
  (g.stagePT1 : ℚ) ≤ v ∧ g.alarmOutsideRange = true

instance (g : GaugeConfig) (v : ℚ) : Decidable (alarmCond g v) := by
  unfold alarmCond; infer_instance

/-- The value of `map(displayValue, stagePT[0], stagePT[1], 0, strip.numPixels())` with
the C float-to-`long` truncation of the first argument. -/
def displayValueMapped (g : GaugeConfig) (v : ℚ) : ℤ :=
  arduinoMap (truncQ v) g.stagePT0 g.stagePT1 0 (NUMNEOPIXELS : ℤ)

/-- The value of `constrain(displayValueMapped, 0, strip.numPixels())`. -/
def displayValueConstrained (g : GaugeConfig) (v : ℚ) : ℤ :=
  constrain (displayValueMapped g v) 0 (NUMNEOPIXELS : ℤ)

/-- The value `numOfLEDs = strip.numPixels() - 1 - displayValueConstrained`: the lowest
pixel index reached by the in-range paint loop. -/
def numOfLEDs (g : GaugeConfig) (v : ℚ) : ℤ :=
  (NUMNEOPIXELS : ℤ) - 1 - displayValueConstrained g v

/-- The sketch function `ledStrip_update(float displayValue)`, as a state
transformer over `LedState` given the current gauge configuration and the
current `millis()` value `t`. Returns the new state and the observable
driver effects of the call. -/
def ledStrip_update (g : GaugeConfig) (s : LedState) (v : ℚ) (t : ℕ) :
    LedState × LedEffects :=
  if inRangeCond g v then
    let n := numOfLEDs g v
    if s.prev_range ≠ n then
      ({ prev_range := n
         warningState := s.warningState
         prevBlinkTime := s.prevBlinkTime
         buf := paintDown g n clearedBuffer },
       { shows := 2
         writes := NUMNEOPIXELS + ((NUMNEOPIXELS : ℤ) - n).toNat
         toggled := false })
    else (s, noLedEffects)
  else if alarmCond g v then
    let s1 : LedState :=
      { prev_range := 8
        warningState := s.warningState
        prevBlinkTime := s.prevBlinkTime
        buf := s.buf }
    if t - s1.prevBlinkTime > 150 then
      if s1.warningState = 0 then
        ({ s1 with
           warningState := 1
           prevBlinkTime := t
           buf := blinkFrameEven g },
         { shows := 1, writes := NUMNEOPIXELS, toggled := true })
      else
        ({ s1 with
           warningState := 0
           prevBlinkTime := t
           buf := blinkFrameOdd g },
         { shows := 1, writes := NUMNEOPIXELS, toggled := true })
    else (s1, noLedEffects)
  else
    if s.prev_range ≠ 100 then
      ({ s with prev_range := 100, buf := clearedBuffer },
       { shows := 1, writes := NUMNEOPIXELS, toggled := false })
    else (s, noLedEffects)

/-- Number of lit (nonzero-color) pixels of a frame buffer. -/
def litCount (buf : Buffer) : ℕ :=
  (Finset.univ.filter (fun i : Fin NUMNEOPIXELS => buf i ≠ 0)).card

/-- The display updater's module state: `lastDisplayValue` and
`prevDispTime`. -/
structure DispState where
  lastDisplayValue : ℚ
  prevDispTime : ℕ
deriving Repr, DecidableEq

/-- Initial display state: `lastDisplayValue = 0`, `prevDispTime = 0`. -/
def dispInit : DispState := { lastDisplayValue := 0, prevDispTime := 0 }

/-- One full-screen redraw issued by `OLED_update`: the value handed to
`dtostrf` together with its width, precision and label. -/
structure DrawEvent where
  value : ℚ
  width : ℕ
  precision : ℕ
  label : String
deriving Repr, DecidableEq

/-- The sketch function `OLED_update(displayValue, width, precision, label)`:
skips everything when the value equals `lastDisplayValue`; otherwise it
records the value as `lastDisplayValue` first and only then consults the
100 ms rate limit (`currentMillis - prevDispTime > dispInterval`) to decide
whether to redraw. Returns the new state and the redraw event, if any. -/
def OLED_update (s : DispState) (v : ℚ) (width precision : ℕ)
    (label : String) (t : ℕ) : DispState × Option DrawEvent :=
  if s.lastDisplayValue ≠ v then
    if t - s.prevDispTime > 100 then
      ({ lastDisplayValue := v, prevDispTime := t },
       some { value := v, width := width, precision := precision,
              label := label })
    else ({ s with lastDisplayValue := v }, none)
  else (s, none)

/-- A sequence of `OLED_update` calls (value and `millis()` timestamp per
call, with fixed width, precision and label), collecting every redraw. -/
def OLED_run (s : DispState) (width precision : ℕ) (label : String) :
    List (ℚ × ℕ) → DispState × List DrawEvent
  | [] => (s, [])
  | (v, t) :: rest =>
    let r := OLED_update s v width precision label t
    let rr := OLED_run r.1 width precision label rest
    (rr.1, r.2.toList ++ rr.2)

/-- The mode controller's state: the previous button sample
(`button_was_pressed`, initialized to `1`) and the current gauge mode
(`gaugeType`, initialized to `1`). -/
structure BtnState where
  button_was_pressed : Bool
  gaugeType : ℤ
deriving Repr, DecidableEq

/-- Initial mode-controller state. -/
def btnInit : BtnState := { button_was_pressed := true, gaugeType := 1 }

/-- The sketch function `handle_button()`, with the active-low pin read
abstracted to the boolean `pressedNow` (`!digitalRead(BUTTON_PIN)`):
an event fires on `pressedNow && !button_was_pressed`; on an event the
mode is incremented and wrapped back to 1 above 8. -/
def handle_button (s : BtnState) (pressedNow : Bool) : BtnState :=
  let event := pressedNow && !s.button_was_pressed
  if event then
    { button_was_pressed := pressedNow
      gaugeType := if s.gaugeType + 1 > 8 then 1 else s.gaugeType + 1 }
  else { button_was_pressed := pressedNow, gaugeType := s.gaugeType }

/-- A sequence of `handle_button` calls over a list of button samples. -/
def handle_button_run (s : BtnState) : List Bool → BtnState
  | [] => s
  | b :: rest => handle_button_run (handle_button s b) rest

/-- The ECU "no data" sentinel `0.9` (the sketch compares readings against
the literal `.9`). -/
def noDataSentinel : ℚ := 9 / 10

/-- The combined per-iteration state touched by one `loop()` gauge case. -/
structure SysState where
  cfg : GaugeConfig
  disp : DispState
  led : LedState

/-- Initial combined state after `setup()`. -/
def sysInit : SysState := { cfg := cfgInit, disp := dispInit, led := ledInit }

/-- What one `loop()` iteration did, observably: the optional OLED redraw,
the LED-driver activity, and whether the static "No Data" screen was shown
instead of the gauge. -/
structure IterEffects where
  draw : Option DrawEvent
  ledEffects : LedEffects
  noDataShown : Bool
deriving Repr, DecidableEq

/-- The body of `loop()` case 2 (Speedometer): queries `VEHICLE_SPEED`; on a sentinel
reading shows "No Data" and touches nothing else; otherwise converts km/h to
mph, applies `set_levels(1, 100)`, updates the OLED and the LED strip. -/
def loopSpeed (st : SysState) (vss : ℚ) (t : ℕ) : SysState × IterEffects :=
  if vss ≠ noDataSentinel then
    let v := vss * (62137119 / 100000000)
    let cfg := speedConfig
    let d := OLED_update st.disp v 3 1 "Speed (mph)" t
    let l := ledStrip_update cfg st.led v t
    ({ cfg := cfg, disp := d.1, led := l.1 },
     { draw := d.2, ledEffects := l.2, noDataShown := false })
  else (st, { draw := none, ledEffects := noLedEffects, noDataShown := true })

/-- The body of `loop()` case 3 (Instant MPG): queries `VEHICLE_SPEED` and `MAF_SENSOR`;
the sketch renders the gauge whenever *either* reading differs from the
sentinel (`vss != .9 || maf != .9`), computing
`(14.7 * 6.17 * 454 * vss * .6213) / (3600 * maf)`, and shows "No Data"
only when both readings are the sentinel. -/
def loopInstantMPG (st : SysState) (vss maf : ℚ) (t : ℕ) :
    SysState × IterEffects :=
  if vss ≠ noDataSentinel ∨ maf ≠ noDataSentinel then
    let instantMPG : ℚ :=
      147 / 10 * (617 / 100) * 454 * vss * (6213 / 10000) / (3600 * maf)
    let cfg := mpgConfig
    let d := OLED_update st.disp instantMPG 4 1 "Instant MPG" t
    let l := ledStrip_update cfg st.led instantMPG t
    ({ cfg := cfg, disp := d.1, led := l.1 },
     { draw := d.2, ledEffects := l.2, noDataShown := false })
  else (st, { draw := none, ledEffects := noLedEffects, noDataShown := true })

/-- The color the in-range paint loop assigns to pixel `i` (the collapsed
form of the sketch's exhaustive three-way chain). -/
def stageColor (g : GaugeConfig) (i : ℤ) : ℕ :=
  if i ≥ g.ledStages1 then g.color0
  else if i ≥ g.ledStages2 then g.color1
  else g.color2

unseal Rat.mul Rat.inv Rat.add Rat.sub

theorem not_inRange_of_alarm {g : GaugeConfig} {v : ℚ}
    (ha : alarmCond g v) : ¬ inRangeCond g v := by
  rcases ha with ⟨hge, htrue⟩
  rintro ⟨-, h2 | h3⟩
  · exact absurd hge (not_le.mpr h2)
  · rw [htrue] at h3
    cases h3

theorem ledStrip_update_of_inRange_ne {g : GaugeConfig} {s : LedState}
    {v : ℚ} (t : ℕ) (hin : inRangeCond g v)
    (hp : s.prev_range ≠ numOfLEDs g v) :
    ledStrip_update g s v t =
      ({ prev_range := numOfLEDs g v
         warningState := s.warningState
         prevBlinkTime := s.prevBlinkTime
         buf := paintDown g (numOfLEDs g v) clearedBuffer },
       { shows := 2
         writes := NUMNEOPIXELS + ((NUMNEOPIXELS : ℤ) - numOfLEDs g v).toNat
         toggled := false }) := by
  simp [ledStrip_update, hin, hp]

theorem ledStrip_update_of_inRange_eq {g : GaugeConfig} {s : LedState}
    {v : ℚ} (t : ℕ) (hin : inRangeCond g v)
    (hp : s.prev_range = numOfLEDs g v) :
    ledStrip_update g s v t = (s, noLedEffects) := by
  simp [ledStrip_update, hin, hp]

theorem ledStrip_update_of_alarm_le {g : GaugeConfig} {s : LedState}
    {v : ℚ} {t : ℕ} (ha : alarmCond g v)
    (hle : t - s.prevBlinkTime ≤ 150) :
    ledStrip_update g s v t = ({ s with prev_range := 8 }, noLedEffects) := by
  have hni := not_inRange_of_alarm ha
  simp [ledStrip_update, hni, ha, Nat.not_lt.mpr hle]

theorem ledStrip_update_of_alarm_gt {g : GaugeConfig} {s : LedState}
    {v : ℚ} {t : ℕ} (ha : alarmCond g v)
    (hgt : 150 < t - s.prevBlinkTime) :
    ledStrip_update g s v t =
      ({ prev_range := 8
         warningState := if s.warningState = 0 then 1 else 0
         prevBlinkTime := t
         buf := if s.warningState = 0 then blinkFrameEven g
                else blinkFrameOdd g },
       { shows := 1, writes := NUMNEOPIXELS, toggled := true }) := by
  have hni := not_inRange_of_alarm ha
  by_cases hw : s.warningState = 0 <;>
    simp [ledStrip_update, hni, ha, hgt, hw]

theorem ledStrip_update_of_below_ne {g : GaugeConfig} {s : LedState}
    {v : ℚ} (t : ℕ) (h1 : ¬ inRangeCond g v) (h2 : ¬ alarmCond g v)
    (hp : s.prev_range ≠ 100) :
    ledStrip_update g s v t =
      ({ s with prev_range := 100, buf := clearedBuffer },
       { shows := 1, writes := NUMNEOPIXELS, toggled := false }) := by
  simp [ledStrip_update, h1, h2, hp]

theorem ledStrip_update_of_below_eq {g : GaugeConfig} {s : LedState}
    {v : ℚ} (t : ℕ) (h1 : ¬ inRangeCond g v) (h2 : ¬ alarmCond g v)
    (hp : s.prev_range = 100) :
    ledStrip_update g s v t = (s, noLedEffects) := by
  simp [ledStrip_update, h1, h2, hp]

theorem ledStrip_update_prev_range_of_inRange {g : GaugeConfig}
    {s : LedState} {v : ℚ} (t : ℕ) (hin : inRangeCond g v) :
    (ledStrip_update g s v t).1.prev_range = numOfLEDs g v := by
  by_cases hp : s.prev_range = numOfLEDs g v
  · rw [ledStrip_update_of_inRange_eq t hin hp]
    exact hp
  · rw [ledStrip_update_of_inRange_ne t hin hp]

theorem ledStrip_update_prev_range_of_alarm {g : GaugeConfig}
    {s : LedState} {v : ℚ} (t : ℕ) (ha : alarmCond g v) :
    (ledStrip_update g s v t).1.prev_range = 8 := by
  by_cases hgt : 150 < t - s.prevBlinkTime
  · rw [ledStrip_update_of_alarm_gt ha hgt]
  · rw [ledStrip_update_of_alarm_le ha (Nat.not_lt.mp hgt)]

/-- Claim C4, counterexample: the configuration in force after the fuel-level
mode's direct overrides violates the claimed invariant
`pixelCount - 1 ≥ levelBoundary1 ≥ levelBoundary2 ≥ 0`, because the override
sets `ledStages[1] = strip.numPixels() = 16 > 15`. -/
theorem C4_counterexample : ¬ levelInvariant fuelConfig := by decide

/-- Claim C4, amended: after each of the eight plain `set_levels` calls the
invariant `pixelCount - 1 ≥ levelBoundary1 ≥ levelBoundary2 ≥ 0` holds; the
fuel-level mode's subsequent direct override sets `levelBoundary1` to
`pixelCount` (16), violating `pixelCount - 1 ≥ levelBoundary1` while
`levelBoundary1 ≥ levelBoundary2 ≥ 0` still holds. -/
theorem C4_amended_level_invariant :
    levelInvariant tachConfig ∧ levelInvariant speedConfig ∧
    levelInvariant mpgConfig ∧ levelInvariant boostConfig ∧
    levelInvariant fuelConfigPre ∧ levelInvariant coolantConfig ∧
    levelInvariant ambientConfig ∧ levelInvariant luxConfig ∧
    fuelConfig.ledStages1 = (NUMNEOPIXELS : ℤ) ∧
    0 ≤ fuelConfig.ledStages2 ∧
    fuelConfig.ledStages2 ≤ fuelConfig.ledStages1 := by decide

set_option maxRecDepth 8000 in
/-- Claim C8: for every byte input 0–255 that is not one of the band-boundary
positions 0, 85, 170, 255, exactly one of the three RGB channels of `Wheel`'s
output is zero. -/
theorem C8_wheel_one_zero_channel (p : ℕ) (hp : p < 256) (h0 : p ≠ 0)
    (h85 : p ≠ 85) (h170 : p ≠ 170) (h255 : p ≠ 255) :
    zeroChannelCount (Wheel p) = 1 := by
  revert p
  decide

/-- Witness for C8 at the concrete position 1. -/
theorem C8_wheel_one_zero_channel_witness : zeroChannelCount (Wheel 1) = 1 :=
  C8_wheel_one_zero_channel 1 (by decide) (by decide) (by decide) (by decide)
    (by decide)

theorem handle_button_run_all_pressed (g : ℤ) (samples : List Bool)
    (h : ∀ b ∈ samples, b = true) :
    handle_button_run { button_was_pressed := true, gaugeType := g } samples
      = { button_was_pressed := true, gaugeType := g } := by
  induction samples with
  | nil => rfl
  | cons b rest ih =>
    have hb : b = true := h b (by simp)
    subst hb
    have hstep : handle_button
        { button_was_pressed := true, gaugeType := g } true
        = { button_was_pressed := true, gaugeType := g } := by
      simp [handle_button]
    rw [handle_button_run, hstep]
    exact ih (fun x hx => h x (by simp [hx]))

/-- Claim C10: the gauge mode changes only on a rising button edge (pressed
now, unpressed at the previous sample); since `button_was_pressed` starts
`true`, a button held from startup never changes the mode until an unpressed
sample is seen; an edge advances the mode by exactly one, wrapping 8 back to
1, so the mode stays in 1..8. -/
theorem C10_button_edge_mode (s : BtnState) (b : Bool) (samples : List Bool)
    (hall : ∀ x ∈ samples, x = true) (hlo : 1 ≤ s.gaugeType)
    (hhi : s.gaugeType ≤ 8) :
    ((handle_button s b).gaugeType ≠ s.gaugeType →
      b = true ∧ s.button_was_pressed = false) ∧
    (handle_button_run btnInit samples).gaugeType = 1 ∧
    (b = true → s.button_was_pressed = false →
      (handle_button s b).gaugeType =
        (if s.gaugeType = 8 then 1 else s.gaugeType + 1)) ∧
    (1 ≤ (handle_button s b).gaugeType ∧ (handle_button s b).gaugeType ≤ 8) := by
  refine ⟨?_, ?_, ?_, ?_⟩
  · intro hne
    by_cases hev : (b && !s.button_was_pressed) = true
    · have hev2 := hev
      simp only [Bool.and_eq_true, Bool.not_eq_true'] at hev2
      exact hev2
    · exfalso
      apply hne
      simp [handle_button, hev]
  · exact congrArg BtnState.gaugeType
      (handle_button_run_all_pressed 1 samples hall)
  · intro hb hnp
    subst hb
    simp only [handle_button, hnp, Bool.not_false, Bool.and_self, if_true]
    split_ifs <;> omega
  · by_cases hev : (b && !s.button_was_pressed) = true
    · simp only [handle_button, hev, if_true]
      split_ifs <;> omega
    · simp only [handle_button, hev, if_false]
      exact ⟨hlo, hhi⟩

/-- Witness for C10: previous sample unpressed, mode 3, pressed sample,
with a held-button run of two pressed samples from startup. -/
theorem C10_button_edge_mode_witness :
    ((handle_button { button_was_pressed := false, gaugeType := 3 }
        true).gaugeType ≠
      ({ button_was_pressed := false, gaugeType := 3 } : BtnState).gaugeType →
      true = true ∧
      ({ button_was_pressed := false, gaugeType := 3 } :
        BtnState).button_was_pressed = false) ∧
    (handle_button_run btnInit [true, true]).gaugeType = 1 ∧
    (true = true →
      ({ button_was_pressed := false, gaugeType := 3 } :
        BtnState).button_was_pressed = false →
      (handle_button { button_was_pressed := false, gaugeType := 3 }
        true).gaugeType =
        (if ({ button_was_pressed := false, gaugeType := 3 } :
            BtnState).gaugeType = 8 then 1
         else ({ button_was_pressed := false, gaugeType := 3 } :
            BtnState).gaugeType + 1)) ∧
    (1 ≤ (handle_button { button_was_pressed := false, gaugeType := 3 }
        true).gaugeType ∧
      (handle_button { button_was_pressed := false, gaugeType := 3 }
        true).gaugeType ≤ 8) :=
  C10_button_edge_mode { button_was_pressed := false, gaugeType := 3 } true
    [true, true] (by decide) (by decide) (by decide)

/-- Claim C7: for a renderer call with the value exactly equal to the high
threshold (and at or above the low threshold), the alarm regime's guard holds
and the in-range guard fails when `alarmOutsideRange` is enabled (so the call
takes the blink branch, observable through `prev_range = 8`); with
`alarmOutsideRange` disabled the in-range guard holds (upper bound inclusive)
and the call takes the in-range branch, recording the mapped lit position in
`prev_range`. -/
theorem C7_high_threshold_tiebreak (g : GaugeConfig) (v : ℚ)
    (hv : v = (g.stagePT1 : ℚ)) (hlow : (g.stagePT0 : ℚ) ≤ v) :
    (g.alarmOutsideRange = true →
      alarmCond g v ∧ ¬ inRangeCond g v ∧
      ∀ s t, (ledStrip_update g s v t).1.prev_range = 8) ∧
    (g.alarmOutsideRange = false →
      inRangeCond g v ∧ ¬ alarmCond g v ∧
      ∀ s t, (ledStrip_update g s v t).1.prev_range = numOfLEDs g v) := by
  constructor
  · intro halarm
    have ha : alarmCond g v := ⟨le_of_eq hv.symm, halarm⟩
    exact ⟨ha, not_inRange_of_alarm ha,
      fun s t => ledStrip_update_prev_range_of_alarm t ha⟩
  · intro halarm
    have hin : inRangeCond g v := ⟨hlow, Or.inr halarm⟩
    refine ⟨hin, ?_, fun s t => ledStrip_update_prev_range_of_inRange t hin⟩
    rintro ⟨-, htrue⟩
    rw [halarm] at htrue
    cases htrue

/-- Witness for C7: the tachometer configuration (alarm enabled) at its high
threshold 6200, and the coolant configuration (alarm disabled) at its high
threshold 220. -/
theorem C7_high_threshold_tiebreak_witness :
    (tachConfig.alarmOutsideRange = true →
      alarmCond tachConfig 6200 ∧ ¬ inRangeCond tachConfig 6200 ∧
      ∀ s t, (ledStrip_update tachConfig s 6200 t).1.prev_range = 8) ∧
    (coolantConfig.alarmOutsideRange = false →
      inRangeCond coolantConfig 220 ∧ ¬ alarmCond coolantConfig 220 ∧
      ∀ s t, (ledStrip_update coolantConfig s 220 t).1.prev_range =
        numOfLEDs coolantConfig 220) :=
  ⟨(C7_high_threshold_tiebreak tachConfig 6200 (by norm_num [tachConfig,
      set_levels]) (by norm_num [tachConfig, set_levels])).1,
   (C7_high_threshold_tiebreak coolantConfig 220 (by norm_num [coolantConfig,
      set_levels]) (by norm_num [coolantConfig, set_levels])).2⟩

/-- Claim C6: in the alarm regime the blink bit toggles only when more than
one 150 ms interval has elapsed since the last toggle timestamp; starting
from a state whose last blink timestamp is `T`, two alarm calls at `T` and
`T + 50` (50 ms apart) produce no toggle and leave `warningState` unchanged,
while two alarm calls at `T` and `T + 200` (200 ms apart) produce exactly one
toggle, at the second call. -/
theorem C6_blink_timing (g : GaugeConfig) (v : ℚ) (s : LedState) (T : ℕ)
    (ha : alarmCond g v) (hT : s.prevBlinkTime = T) :
    (∀ t, (ledStrip_update g s v t).2.toggled = true →
      150 < t - s.prevBlinkTime) ∧
    ((ledStrip_update g s v T).2.toggled = false ∧
     (ledStrip_update g (ledStrip_update g s v T).1 v (T + 50)).2.toggled
        = false ∧
     (ledStrip_update g (ledStrip_update g s v T).1 v (T + 50)).1.warningState
        = s.warningState) ∧
    ((ledStrip_update g s v T).2.toggled = false ∧
     (ledStrip_update g (ledStrip_update g s v T).1 v (T + 200)).2.toggled
        = true) := by
  have h0 : T - s.prevBlinkTime ≤ 150 := by omega
  have hfirst : ledStrip_update g s v T =
      ({ s with prev_range := 8 }, noLedEffects) :=
    ledStrip_update_of_alarm_le ha h0
  have hmid : ((ledStrip_update g s v T).1).prevBlinkTime = T := by
    rw [hfirst]
    exact hT
  refine ⟨?_, ?_, ?_⟩
  · intro t htog
    by_cases hgt : 150 < t - s.prevBlinkTime
    · exact hgt
    · rw [ledStrip_update_of_alarm_le ha (Nat.not_lt.mp hgt)] at htog
      cases htog
  · have h50 : (T + 50) - ((ledStrip_update g s v T).1).prevBlinkTime ≤ 150 := by
      rw [hmid]
      omega
    refine ⟨by rw [hfirst]; rfl, ?_, ?_⟩
    · rw [ledStrip_update_of_alarm_le ha h50]
      rfl
    · rw [ledStrip_update_of_alarm_le ha h50, hfirst]
  · have h200 : 150 < (T + 200) - ((ledStrip_update g s v T).1).prevBlinkTime := by
      rw [hmid]
      omega
    refine ⟨?_, ?_⟩
    · rw [hfirst]
      rfl
    · rw [ledStrip_update_of_alarm_gt ha h200]

/-- Witness for C6: the tachometer configuration in alarm at value 7000,
from the initial renderer state (last blink timestamp 0). -/
theorem C6_blink_timing_witness :
    (∀ t, (ledStrip_update tachConfig ledInit 7000 t).2.toggled = true →
      150 < t - ledInit.prevBlinkTime) ∧
    ((ledStrip_update tachConfig ledInit 7000 0).2.toggled = false ∧
     (ledStrip_update tachConfig (ledStrip_update tachConfig ledInit 7000 0).1
        7000 (0 + 50)).2.toggled = false ∧
     (ledStrip_update tachConfig (ledStrip_update tachConfig ledInit 7000 0).1
        7000 (0 + 50)).1.warningState = ledInit.warningState) ∧
    ((ledStrip_update tachConfig ledInit 7000 0).2.toggled = false ∧
     (ledStrip_update tachConfig (ledStrip_update tachConfig ledInit 7000 0).1
        7000 (0 + 200)).2.toggled = true) :=
  C6_blink_timing tachConfig 7000 ledInit 0 (by decide) (by decide)

/-- Claim C5: two consecutive in-range renderer calls whose values map to the
same lit-count leave the strip untouched at the second call (no commit, no
pixel write); two consecutive below-range calls clear the strip at most once
— the first call commits at most one clear and the second call does nothing
(the `prev_range = 100` sentinel marks the strip as already cleared). -/
theorem C5_renderer_debounce (g : GaugeConfig) (s s2 : LedState)
    (v1 v2 w1 w2 : ℚ) (t1 t2 u1 u2 : ℕ)
    (h1 : inRangeCond g v1) (h2 : inRangeCond g v2)
    (heq : numOfLEDs g v2 = numOfLEDs g v1)
    (hw1i : ¬ inRangeCond g w1) (hw1a : ¬ alarmCond g w1)
    (hw2i : ¬ inRangeCond g w2) (hw2a : ¬ alarmCond g w2) :
    (ledStrip_update g (ledStrip_update g s v1 t1).1 v2 t2).2
      = noLedEffects ∧
    (ledStrip_update g (ledStrip_update g s2 w1 u1).1 w2 u2).2
      = noLedEffects ∧
    (ledStrip_update g s2 w1 u1).2.shows ≤ 1 := by
  refine ⟨?_, ?_, ?_⟩
  · have hp : ((ledStrip_update g s v1 t1).1).prev_range = numOfLEDs g v2 := by
      rw [ledStrip_update_prev_range_of_inRange t1 h1]
      exact heq.symm
    rw [ledStrip_update_of_inRange_eq t2 h2 hp]
  · have hp : ((ledStrip_update g s2 w1 u1).1).prev_range = 100 := by
      by_cases hq : s2.prev_range = 100
      · rw [ledStrip_update_of_below_eq u1 hw1i hw1a hq]
        exact hq
      · rw [ledStrip_update_of_below_ne u1 hw1i hw1a hq]
    rw [ledStrip_update_of_below_eq u2 hw2i hw2a hp]
  · by_cases hq : s2.prev_range = 100
    · rw [ledStrip_update_of_below_eq u1 hw1i hw1a hq]
      exact Nat.zero_le 1
    · rw [ledStrip_update_of_below_ne u1 hw1i hw1a hq]

/-- Witness for C5: tachometer configuration; 5000 and 5010 both map to the
lit position 9; 1000 is below range twice, from the initial state. -/
theorem C5_renderer_debounce_witness :
    (ledStrip_update tachConfig
      (ledStrip_update tachConfig ledInit 5000 0).1 5010 10).2
        = noLedEffects ∧
    (ledStrip_update tachConfig
      (ledStrip_update tachConfig ledInit 1000 0).1 1000 10).2
        = noLedEffects ∧
    (ledStrip_update tachConfig ledInit 1000 0).2.shows ≤ 1 :=
  C5_renderer_debounce tachConfig ledInit ledInit 5000 5010 1000 1000 0 10 0 10
    (by decide) (by decide) (by decide) (by decide) (by decide) (by decide)
    (by decide)

/-- Claim C9 (implicit): every alarm-regime renderer call stores 8 in
`prev_range`, and 8 is an attainable in-range lit position on the 16-pixel
strip, not a reserved sentinel; consequently an in-range call immediately
after an alarm call whose mapped lit position is also 8 performs no pixel
write and no commit, leaving the alarm blink pattern on the strip. -/
theorem C9_alarm_prev_range_collision (g : GaugeConfig) (s : LedState)
    (v1 v2 : ℚ) (t1 t2 : ℕ) (ha : alarmCond g v1)
    (h2 : inRangeCond g v2) (h8 : numOfLEDs g v2 = 8) :
    (ledStrip_update g s v1 t1).1.prev_range = 8 ∧
    (ledStrip_update g (ledStrip_update g s v1 t1).1 v2 t2).2
      = noLedEffects ∧
    (ledStrip_update g (ledStrip_update g s v1 t1).1 v2 t2).1.buf
      = (ledStrip_update g s v1 t1).1.buf := by
  have hprev : (ledStrip_update g s v1 t1).1.prev_range = 8 :=
    ledStrip_update_prev_range_of_alarm t1 ha
  have hp : ((ledStrip_update g s v1 t1).1).prev_range = numOfLEDs g v2 := by
    rw [hprev, h8]
  have hskip := ledStrip_update_of_inRange_eq t2 h2 hp
  exact ⟨hprev, by rw [hskip], by rw [hskip]⟩

/-- Witness for C9: tachometer configuration; alarm call at 7000, then an
in-range call at 5075, which maps exactly to lit position 8. -/
theorem C9_alarm_prev_range_collision_witness :
    (ledStrip_update tachConfig ledInit 7000 0).1.prev_range = 8 ∧
    (ledStrip_update tachConfig
      (ledStrip_update tachConfig ledInit 7000 0).1 5075 10).2
        = noLedEffects ∧
    (ledStrip_update tachConfig
      (ledStrip_update tachConfig ledInit 7000 0).1 5075 10).1.buf
      = (ledStrip_update tachConfig ledInit 7000 0).1.buf :=
  C9_alarm_prev_range_collision tachConfig ledInit 7000 5075 0 10
    (by decide) (by decide) (by decide)

theorem OLED_update_skip_same (s : DispState) (v : ℚ) (w p : ℕ)
    (label : String) (t : ℕ) (h : s.lastDisplayValue = v) :
    OLED_update s v w p label t = (s, none) := by
  simp [OLED_update, h]

theorem OLED_update_record (s : DispState) (v : ℚ) (w p : ℕ)
    (label : String) (t : ℕ) (h : s.lastDisplayValue ≠ v)
    (ht : t - s.prevDispTime ≤ 100) :
    OLED_update s v w p label t
      = ({ s with lastDisplayValue := v }, none) := by
  simp [OLED_update, h, Nat.not_lt.mpr ht]

theorem OLED_update_draw (s : DispState) (v : ℚ) (w p : ℕ)
    (label : String) (t : ℕ) (h : s.lastDisplayValue ≠ v)
    (ht : 100 < t - s.prevDispTime) :
    OLED_update s v w p label t
      = ({ lastDisplayValue := v, prevDispTime := t },
         some { value := v, width := w, precision := p, label := label }) := by
  simp [OLED_update, h, ht]

/-- Claim C1, counterexample: after a redraw at time 1000 showing 5, the
changed values 6 (at 1050) and 7 (at 1080) both arrive within 100 ms of the
redraw; once the interval has elapsed (call at 1200, value still 7) nothing
is drawn at all — the run produces zero redraws, not the claimed exactly one
redraw of the second value. -/
theorem C1_counterexample :
    (OLED_run { lastDisplayValue := 5, prevDispTime := 1000 } 4 0 "RPM"
      [(6, 1050), (7, 1080), (7, 1200)]).2 = [] := by decide

/-- Claim C1, amended: a changed value arriving within 100 ms of the last
redraw is recorded as the last-shown value but not drawn; two changed values
within 100 ms of the last redraw therefore produce zero redraws, and the
second value is never drawn on its own — a post-interval call repeating it
draws nothing, and a redraw happens only when a post-interval call passes a
value different from the recorded one, drawing that newer value. -/
theorem C1_amended_display_rate_limit (s : DispState) (w p : ℕ)
    (label : String) (v1 v2 v3 : ℚ) (t1 t2 t3 : ℕ)
    (h1 : s.lastDisplayValue ≠ v1) (h2 : v1 ≠ v2) (h3 : v2 ≠ v3)
    (ht1 : t1 - s.prevDispTime ≤ 100) (ht2 : t2 - s.prevDispTime ≤ 100)
    (ht3 : 100 < t3 - s.prevDispTime) :
    (OLED_update s v1 w p label t1).2 = none ∧
    (OLED_update (OLED_update s v1 w p label t1).1 v2 w p label t2).2
      = none ∧
    (OLED_update (OLED_update s v1 w p label t1).1 v2 w p
        label t2).1.lastDisplayValue = v2 ∧
    (OLED_update (OLED_update s v1 w p label t1).1 v2 w p
        label t2).1.prevDispTime = s.prevDispTime ∧
    (OLED_update (OLED_update (OLED_update s v1 w p label t1).1 v2 w p
        label t2).1 v2 w p label t3).2 = none ∧
    (OLED_update (OLED_update (OLED_update s v1 w p label t1).1 v2 w p
        label t2).1 v3 w p label t3).2
      = some { value := v3, width := w, precision := p, label := label } := by
  have e1 : OLED_update s v1 w p label t1
      = ({ s with lastDisplayValue := v1 }, none) :=
    OLED_update_record s v1 w p label t1 h1 ht1
  have e2 : OLED_update { s with lastDisplayValue := v1 } v2 w p label t2
      = ({ s with lastDisplayValue := v2 }, none) :=
    OLED_update_record { s with lastDisplayValue := v1 } v2 w p label t2 h2
      ht2
  rw [e1, e2]
  refine ⟨rfl, rfl, rfl, rfl, ?_, ?_⟩
  · rw [OLED_update_skip_same { s with lastDisplayValue := v2 } v2 w p label
      t3 rfl]
  · rw [OLED_update_draw { s with lastDisplayValue := v2 } v3 w p label t3 h3
      ht3]

/-- Witness for C1 (amended): last redraw showed 5 at time 1000; changed
values 6 and 7 arrive at 1050 and 1080; at 1200 the repeated 7 draws
nothing while a fresh 8 would draw 8. -/
theorem C1_amended_display_rate_limit_witness :
    (OLED_update { lastDisplayValue := 5, prevDispTime := 1000 } 6 4 0 "RPM"
      1050).2 = none ∧
    (OLED_update (OLED_update { lastDisplayValue := 5, prevDispTime := 1000 }
      6 4 0 "RPM" 1050).1 7 4 0 "RPM" 1080).2 = none ∧
    (OLED_update (OLED_update { lastDisplayValue := 5, prevDispTime := 1000 }
      6 4 0 "RPM" 1050).1 7 4 0 "RPM" 1080).1.lastDisplayValue = 7 ∧
    (OLED_update (OLED_update { lastDisplayValue := 5, prevDispTime := 1000 }
      6 4 0 "RPM" 1050).1 7 4 0 "RPM" 1080).1.prevDispTime
      = ({ lastDisplayValue := 5, prevDispTime := 1000 } :
          DispState).prevDispTime ∧
    (OLED_update (OLED_update
      (OLED_update { lastDisplayValue := 5, prevDispTime := 1000 }
        6 4 0 "RPM" 1050).1 7 4 0 "RPM" 1080).1 7 4 0
      "RPM" 1200).2 = none ∧
    (OLED_update (OLED_update
      (OLED_update { lastDisplayValue := 5, prevDispTime := 1000 }
        6 4 0 "RPM" 1050).1 7 4 0 "RPM" 1080).1 8 4 0
      "RPM" 1200).2
      = some { value := 8, width := 4, precision := 0, label := "RPM" } :=
  C1_amended_display_rate_limit { lastDisplayValue := 5, prevDispTime := 1000 }
    4 0 "RPM" 6 7 8 1050 1080 1200 (by decide) (by decide) (by decide)
    (by decide) (by decide) (by decide)

/-- Claim C2 (code bug evaluation): with a single-query mode (Speedometer)
the sentinel reading 0.9 produces the "No Data" screen and leaves the gauge
state and LED strip untouched; but in the two-query Instant-MPG mode, a
sentinel `VEHICLE_SPEED` reading combined with a valid `MAF_SENSOR` reading
of 5.0 passes the `vss != .9 || maf != .9` guard, so the sketch computes the
MPG formula from the sentinel value 0.9 itself and renders it: no "No Data"
screen, two strip commits, and an OLED redraw of the bogus value. -/
theorem C2_sentinel_loop_eval :
    ((loopSpeed sysInit noDataSentinel 200).2.noDataShown = true ∧
     (loopSpeed sysInit noDataSentinel 200).2.ledEffects = noLedEffects ∧
     (loopSpeed sysInit noDataSentinel 200).2.draw = none ∧
     (loopSpeed sysInit noDataSentinel 200).1.cfg = cfgInit ∧
     (loopSpeed sysInit noDataSentinel 200).1.disp = dispInit ∧
     (loopSpeed sysInit noDataSentinel 200).1.led.prev_range = 100) ∧
    ((loopInstantMPG sysInit noDataSentinel 5 200).2.noDataShown = false ∧
     (loopInstantMPG sysInit noDataSentinel 5 200).2.ledEffects.shows = 2 ∧
     (loopInstantMPG sysInit noDataSentinel 5 200).2.draw ≠ none) := by
  decide

theorem stageColor_ne_zero (g : GaugeConfig) (i : ℤ) (hc0 : g.color0 ≠ 0)
    (hc1 : g.color1 ≠ 0) (hc2 : g.color2 ≠ 0) : stageColor g i ≠ 0 := by
  unfold stageColor
  split_ifs <;> assumption

theorem paintPixel_apply (g : GaugeConfig) (buf : Buffer) (m : ℤ)
    (i : Fin NUMNEOPIXELS) :
    paintPixel g buf m i
      = if (i : ℤ) = m then stageColor g (i : ℤ) else buf i := by
  simp only [paintPixel, ite_apply, setPixelColor, stageColor]
  by_cases him : (i : ℤ) = m
  · rw [him]
    simp only [eq_self_iff_true, if_true]
    split_ifs <;> first | rfl | (exfalso; omega)
  · simp only [if_neg him]
    split_ifs <;> rfl

theorem paintDownAux_apply (g : GaugeConfig) (n : ℤ) (fuel : ℕ) :
    ∀ (ledNum : ℤ) (buf : Buffer) (i : Fin NUMNEOPIXELS),
      (ledNum + 1 - n).toNat ≤ fuel →
      paintDownAux g n fuel ledNum buf i
        = if n ≤ (i : ℤ) ∧ (i : ℤ) ≤ ledNum then stageColor g (i : ℤ)
          else buf i := by
  induction fuel with
  | zero =>
    intro ledNum buf i hf
    have hni : ¬ (n ≤ (i : ℤ) ∧ (i : ℤ) ≤ ledNum) := by omega
    simp only [paintDownAux]
    rw [if_neg hni]
  | succ fuel ih =>
    intro ledNum buf i hf
    simp only [paintDownAux]
    by_cases hc : n ≤ ledNum
    · rw [if_pos hc,
        ih (ledNum - 1) (paintPixel g buf ledNum) i (by omega),
        paintPixel_apply]
      split_ifs <;> first | rfl | (exfalso; omega)
    · rw [if_neg hc, if_neg (by omega : ¬ (n ≤ (i : ℤ) ∧ (i : ℤ) ≤ ledNum))]

theorem paintDown_apply (g : GaugeConfig) (n : ℤ) (buf : Buffer)
    (i : Fin NUMNEOPIXELS) (hn : -1 ≤ n) :
    paintDown g n buf i
      = if n ≤ (i : ℤ) then stageColor g (i : ℤ) else buf i := by
  unfold paintDown
  rw [paintDownAux_apply g n (NUMNEOPIXELS + 1) ((NUMNEOPIXELS : ℤ) - 1) buf i
    (by simp only [NUMNEOPIXELS]; omega)]
  have hi : (i : ℤ) ≤ (NUMNEOPIXELS : ℤ) - 1 := by
    have := i.isLt
    simp only [NUMNEOPIXELS] at this ⊢
    omega
  split_ifs <;> first | rfl | (exfalso; omega)

theorem numOfLEDs_bounds (g : GaugeConfig) (v : ℚ) :
    -1 ≤ numOfLEDs g v ∧ numOfLEDs g v ≤ (NUMNEOPIXELS : ℤ) - 1 := by
  unfold numOfLEDs displayValueConstrained constrain
  split_ifs <;> simp only [NUMNEOPIXELS] at * <;> omega

theorem ledStrip_update_buf_of_inRange_ne {g : GaugeConfig} {s : LedState}
    {v : ℚ} (t : ℕ) (hin : inRangeCond g v)
    (hp : s.prev_range ≠ numOfLEDs g v) :
    (ledStrip_update g s v t).1.buf
      = fun i : Fin NUMNEOPIXELS =>
          if numOfLEDs g v ≤ (i : ℤ) then stageColor g (i : ℤ) else 0 := by
  rw [ledStrip_update_of_inRange_ne t hin hp]
  funext i
  show paintDown g (numOfLEDs g v) clearedBuffer i
    = if numOfLEDs g v ≤ (i : ℤ) then stageColor g (i : ℤ) else 0
  rw [paintDown_apply g (numOfLEDs g v) clearedBuffer i
    (numOfLEDs_bounds g v).1]
  rfl

theorem card_lit_threshold (n : ℤ) (h1 : -1 ≤ n) (h2 : n ≤ 15) :
    (Finset.univ.filter (fun i : Fin NUMNEOPIXELS => n ≤ (i : ℤ))).card
      = ((NUMNEOPIXELS : ℤ) - n).toNat ⊓ NUMNEOPIXELS := by
  interval_cases n <;> decide

/-- Claim C3, counterexample: with the tachometer configuration, the value
4200 — exactly the low threshold — maps to the clamped lit-count 0, yet the
renderer lights one pixel (the loop from pixel 15 down to
`numPixels - 1 - 0 = 15` runs once), so "value = low yields lit-count 0
(no pixels lit)" is false on the code. -/
theorem C3_counterexample :
    displayValueConstrained tachConfig 4200 = 0 ∧
    litCount ((ledStrip_update tachConfig ledInit 4200 0).1.buf) = 1 := by
  decide

/-- Claim C3, amended: for every in-range renderer call that repaints the
strip (previous lit position differs) with nonzero stage colors, the number
of lit pixels is the clamped linear map of the value *plus one*, capped at
`pixelCount`: the loop lights pixels `numPixels - 1 - clamp` through
`numPixels - 1`. In particular `value = low` lights exactly one pixel, and
values at or above the high threshold with alarm disabled light all 16. -/
theorem C3_amended_lit_count (g : GaugeConfig) (s : LedState) (v : ℚ)
    (t : ℕ) (hin : inRangeCond g v) (hp : s.prev_range ≠ numOfLEDs g v)
    (hc0 : g.color0 ≠ 0) (hc1 : g.color1 ≠ 0) (hc2 : g.color2 ≠ 0) :
    litCount ((ledStrip_update g s v t).1.buf)
      = (displayValueConstrained g v + 1).toNat ⊓ NUMNEOPIXELS := by
  rw [ledStrip_update_buf_of_inRange_ne t hin hp]
  simp only [litCount]
  have hcong : Finset.univ.filter (fun i : Fin NUMNEOPIXELS =>
        (if numOfLEDs g v ≤ (i : ℤ) then stageColor g (i : ℤ) else 0) ≠ 0)
      = Finset.univ.filter
          (fun i : Fin NUMNEOPIXELS => numOfLEDs g v ≤ (i : ℤ)) := by
    apply Finset.filter_congr
    intro i _
    by_cases hni : numOfLEDs g v ≤ (i : ℤ)
    · simp [hni, stageColor_ne_zero g (i : ℤ) hc0 hc1 hc2]
    · simp [hni]
  rw [hcong]
  rw [card_lit_threshold (numOfLEDs g v) (numOfLEDs_bounds g v).1
    (by have := (numOfLEDs_bounds g v).2; simp only [NUMNEOPIXELS] at this ⊢;
        omega)]
  have heq : (NUMNEOPIXELS : ℤ) - numOfLEDs g v
      = displayValueConstrained g v + 1 := by
    unfold numOfLEDs
    ring
  rw [heq]

/-- Witness for C3 (amended) at the concrete in-range value 5000 of the
tachometer configuration: the clamped map is 6, and 7 pixels are lit. -/
theorem C3_amended_lit_count_witness :
    litCount ((ledStrip_update tachConfig ledInit 5000 0).1.buf)
      = (displayValueConstrained tachConfig 5000 + 1).toNat ⊓ NUMNEOPIXELS :=
  C3_amended_lit_count tachConfig ledInit 5000 0 (by decide) (by decide)
    (by decide) (by decide) (by decide)

end MultiDisplay
